import Mathlib

/-!
Verification of the scene-state/input orchestration layer of a Rust 3D
instanced-grid viewer (`src/state/world.rs`, `src/state/world/model.rs`,
`src/state/camera_controller.rs`, `src/state/camera.rs`).

Modelling conventions:
* `f32` scalars are modelled by exact rationals `ℚ`.  All quantities the
  claims touch (grid offsets that are multiples of 1.5, angles that are
  multiples of 0.5, scale steps of 0.01) are exactly representable in
  `f32` at the relevant magnitudes, so exact arithmetic is faithful there.
* `u32` counters are modelled by `ℕ`; the one subtraction in the code is
  guarded by a positivity test, so no wrap-around behaviour is lost.
* A rotation quaternion `Quaternion::from_axis_angle(unit_z, Deg a)` is
  represented by the angle `a` (in degrees) that is passed to the
  constructor, since every rotation the code builds is about the same
  axis; the `Inst.angleDeg` field records that angle.
* The trigonometric/normalisation functions used by the camera controller
  (`cos`, `sin`, `normalize`) are not rational; they are abstracted into a
  `Trig` parameter record.  Every theorem about the controller holds for
  an arbitrary interpretation of `Trig`, and the concrete branches the
  claims are about never depend on the interpretation.
-/

/-- A 3-component vector of exact scalars, modelling `cgmath::Vector3<f32>` /
`cgmath::Point3<f32>`. -/
structure Vec3 where
  x : ℚ
  y : ℚ
  z : ℚ
deriving DecidableEq, Repr

namespace Vec3

/-- Component-wise addition. -/
def add (v w : Vec3) : Vec3 := ⟨v.x + w.x, v.y + w.y, v.z + w.z⟩

/-- Component-wise subtraction. -/
def sub (v w : Vec3) : Vec3 := ⟨v.x - w.x, v.y - w.y, v.z - w.z⟩

/-- Scalar multiplication. -/
def smul (c : ℚ) (v : Vec3) : Vec3 := ⟨c * v.x, c * v.y, c * v.z⟩

/-- Cross product, as in `cgmath::Vector3::cross`. -/
def cross (v w : Vec3) : Vec3 :=
  ⟨v.y * w.z - v.z * w.y, v.z * w.x - v.x * w.z, v.x * w.y - v.y * w.x⟩

end Vec3

/-- One object instance produced by the world generator: position, rotation
(recorded as the degree angle of the Z-axis quaternion
`Quaternion::from_axis_angle(unit_z, Deg angleDeg)`), and uniform scale.
Models `state::world::instance::Instance`. -/
structure Inst where
  pos : Vec3
  angleDeg : ℚ
  scale : ℚ
deriving DecidableEq, Repr

/-! ## The World state (`src/state/world.rs`)

`World` in the source owns a `Vec<Model>`; the code only ever touches
`models[0]` (the grid model) and `models[1]` (the help overlay model), and
of a model's internals only its instance list, its visibility flag, and
mesh 0's material index together with the material count
(`Model::change_material`, `src/state/world/model.rs` lines 118-123).
Those observable parts are inlined as fields here. -/
structure World where
  is_increase_pressed : Bool
  is_decrease_pressed : Bool
  is_spin : Bool
  is_spin_pressed : Bool
  is_color_change : Bool
  is_color_change_pressed : Bool
  cur_angle : ℚ
  cur_scale : ℚ
  is_resize : Bool
  is_resize_pressed : Bool
  is_upscalling : Bool
  num_instances : ℕ
  -- the source field `initialized`, set at construction and cleared on the
  -- first non-help frame
  is_init : Bool
  is_help_pressed : Bool
  is_being_helped : Bool
  is_help_just_pressed : Bool
  -- `models[0].meshes[0].material` and `models[0].materials.len()`
  model0_mesh0_material : ℕ
  model0_num_materials : ℕ
  model0_instances : List Inst
  model0_visible : Bool
  model1_instances : List Inst
  model1_visible : Bool
deriving DecidableEq, Repr

namespace World

/-- The state `World::new` produces (model loading aside): source
`world.rs` lines 60-78. -/
def new0 : World where
  is_increase_pressed := false
  is_decrease_pressed := false
  is_spin := false
  is_spin_pressed := false
  is_color_change := false
  is_color_change_pressed := false
  cur_angle := 0
  cur_scale := 1
  is_resize := false
  is_resize_pressed := false
  is_upscalling := false
  num_instances := 5
  is_init := true
  is_help_pressed := false
  is_being_helped := true
  is_help_just_pressed := false
  model0_mesh0_material := 0
  model0_num_materials := 2
  model0_instances := []
  model0_visible := true
  model1_instances := []
  model1_visible := true

/-- `Model::change_material` (`model.rs` lines 118-123) acting on mesh 0's
material index `m` with `len` materials: increment, and reset to `0` once
`len <= m+1`. -/
def changeMaterialIdx (len m : ℕ) : ℕ :=
  let m2 := m + 1
  if len ≤ m2 then 0 else m2

/-- Grid offset: `SPACE_BETWEEN * (i as f32 - num_instances as f32 / 2.0)`
with `SPACE_BETWEEN = 3.0` (`world.rs` lines 212, 221-222). -/
def off (n i : ℕ) : ℚ := 3 * ((i : ℚ) - (n : ℚ) / 2)

/-- One row of the generated grid (`world.rs` lines 220-234): the inner
`move` closure of `update_world` owns a fresh copy of the `angle`
accumulator per row (per outer `z`), and mutates that copy when a cell's
position `(px, 0, pz)` is exactly zero — so the `+45°` bump persists for
the rest of the same row.  `a` is the accumulator value on entry, `xs` the
remaining column indices. -/
def rowGo (n : ℕ) (s pz : ℚ) : ℚ → List ℕ → List Inst
  | _, [] => []
  | a, i :: xs =>
    let px := off n i
    let a2 := if px = 0 ∧ pz = 0 then a + 45 else a
    ⟨⟨px, 0, pz⟩, a2, s⟩ :: rowGo n s pz a2 xs

/-- The accumulator value after a row prefix has been processed. -/
def rowAngleAfter (n : ℕ) (pz : ℚ) : ℚ → List ℕ → ℚ
  | a, [] => a
  | a, i :: xs => rowAngleAfter n pz (if off n i = 0 ∧ pz = 0 then a + 45 else a) xs

/-- The full instance grid regenerated by `update_world` on a changed frame
(`world.rs` lines 219-235): rows `z`, columns `x`, each row starting from
angle accumulator `a`, uniform scale `s`. -/
def updateWorldInstances (n : ℕ) (a s : ℚ) : List Inst :=
  (List.range n).flatMap fun z => rowGo n s (off n z) a (List.range n)

/-- Initialization check of `update_world` (`world.rs` lines 158-161):
the first non-help frame raises the `change_occurred` flag and clears the
flag field. -/
def stepInit (w : World) : World × Bool :=
  if w.is_init then ({ w with is_init := false }, true) else (w, false)

/-- Count increase (`world.rs` lines 162-165): level-triggered; raises
the flag. -/
def stepInc (p : World × Bool) : World × Bool :=
  if p.1.is_increase_pressed then
    ({ p.1 with num_instances := p.1.num_instances + 1 }, true)
  else p

/-- Count decrease (`world.rs` lines 166-169): level-triggered, guarded
by a positive count; note the source NEGATES the flag
(`change_occurred = !change_occurred`) instead of setting it. -/
def stepDec (p : World × Bool) : World × Bool :=
  if p.1.is_decrease_pressed ∧ 0 < p.1.num_instances then
    ({ p.1 with num_instances := p.1.num_instances - 1 }, !p.2)
  else p

/-- Spin (`world.rs` lines 171-179): advance the angle by
`0.5 + num/200 + num/1000` (u32 integer divisions, each cast to f32) and
wrap at 360; raises the flag. -/
def stepSpin (p : World × Bool) : World × Bool :=
  if p.1.is_spin then
    let a := p.1.cur_angle + 1/2 + ((p.1.num_instances / 200 : ℕ) : ℚ)
      + ((p.1.num_instances / 1000 : ℕ) : ℚ)
    ({ p.1 with cur_angle := if 360 ≤ a then a - 360 else a }, true)
  else p

/-- Recolor (`world.rs` lines 181-187): debounced edge — fires once per
press, cycling model 0 / mesh 0's material; raises the flag on the edge
only. -/
def stepColor (p : World × Bool) : World × Bool :=
  if p.1.is_color_change ∧ !p.1.is_color_change_pressed then
    ({ p.1 with
        is_color_change_pressed := true
        model0_mesh0_material :=
          changeMaterialIdx p.1.model0_num_materials p.1.model0_mesh0_material },
      true)
  else if !p.1.is_color_change then
    ({ p.1 with is_color_change_pressed := false }, p.2)
  else p

/-- Resize ping-pong (`world.rs` lines 189-206): step the scale by ±0.01,
flipping direction at the bounds; raises the flag while active. -/
def stepResize (p : World × Bool) : World × Bool :=
  if p.1.is_resize then
    (if p.1.is_upscalling then
      let s := p.1.cur_scale + 1/100
      { p.1 with cur_scale := s, is_upscalling := !(1 ≤ s) }
    else
      let s := p.1.cur_scale - 1/100
      { p.1 with cur_scale := s, is_upscalling := s ≤ 1/2 }, true)
  else p

/-- The body of `World::update_world` minus the final regeneration
(`world.rs` lines 157-207): the five toggle families run in source order,
threading the state and the `change_occurred` flag. -/
def updateWorldCore (w : World) : World × Bool :=
  stepResize (stepColor (stepSpin (stepDec (stepInc (stepInit w)))))

/-- `World::update_world` (`world.rs` lines 154-239): a no-op in help mode,
otherwise runs the core state update and, when the `change_occurred` flag
ends up true, regenerates model 0's instance list wholesale. -/
def updateWorld (w : World) : World :=
  if w.is_being_helped then w
  else
    let p := updateWorldCore w
    let w2 := p.1
    if p.2 then
      { w2 with model0_instances :=
          updateWorldInstances w2.num_instances w2.cur_angle w2.cur_scale }
    else w2

/-- The `KeyCode::Digit1` (spin key) arm of `World::process_events`
(`world.rs` lines 106-114): an edge-triggered toggle of `is_spin`
debounced by `is_spin_pressed`. -/
def spinKey (isPressed : Bool) (w : World) : World :=
  if isPressed ∧ !w.is_spin_pressed then
    { w with is_spin := !w.is_spin, is_spin_pressed := true }
  else if !isPressed ∧ w.is_spin_pressed then
    { w with is_spin_pressed := false }
  else w

end World

/-! ## Camera and camera controller (`src/state/camera.rs`,
`src/state/camera_controller.rs`) -/

/-- The camera fields the controller reads or writes (`camera.rs` lines
4-19); `aspect`, `fovy`, `znear`, `zfar` are never touched by the
controller and are omitted. -/
structure Camera where
  eye : Vec3
  target : Vec3
  up : Vec3
deriving DecidableEq, Repr

/-- Abstract interpretation of the non-rational operations the controller
uses: `front yaw pitch` is the normalized spherical direction
`normalize(cos yaw * cos pitch, sin pitch, sin yaw * cos pitch)` (angles
in degrees), `norm3` is vector normalization.  Controller theorems hold
for every interpretation. -/
structure Trig where
  front : ℚ → ℚ → Vec3
  norm3 : Vec3 → Vec3

/-- A trivial interpretation, used to instantiate closed statements. -/
def Trig.triv : Trig where
  front := fun _ _ => ⟨0, 0, -1⟩
  norm3 := fun v => v

/-- `f32::clamp(lo, hi)`. -/
def rclamp (lo hi v : ℚ) : ℚ := if v < lo then lo else if hi < v then hi else v

/-- The controller state (`camera_controller.rs` lines 8-33). -/
structure CameraController where
  speed : ℚ
  sensitivity : ℚ
  is_forward_pressed : Bool
  is_backward_pressed : Bool
  is_left_pressed : Bool
  is_right_pressed : Bool
  is_up_pressed : Bool
  is_down_pressed : Bool
  is_looking_left : Bool
  is_looking_right : Bool
  is_looking_up : Bool
  is_looking_down : Bool
  is_h_pressed : Bool
  is_being_helped : Bool
  is_h_just_pressed : Bool
  eyecpy : Vec3
  targetcpy : Vec3
  yaw : ℚ
  pitch : ℚ
deriving DecidableEq, Repr

namespace CameraController

/-- `CameraController::new(speed)` (`camera_controller.rs` lines 37-59). -/
def new (speed : ℚ) : CameraController where
  speed := speed
  sensitivity := 1/10
  is_forward_pressed := false
  is_backward_pressed := false
  is_left_pressed := false
  is_right_pressed := false
  is_up_pressed := false
  is_down_pressed := false
  is_looking_left := false
  is_looking_right := false
  is_looking_up := false
  is_looking_down := false
  is_h_pressed := false
  is_being_helped := true
  is_h_just_pressed := false
  eyecpy := ⟨0, 1, 2⟩
  targetcpy := ⟨0, 0, 0⟩
  yaw := -90
  pitch := 0

/-- The `KeyCode::KeyH` arm of `CameraController::process_events`
(`camera_controller.rs` lines 119-129): toggle help mode; exiting help
sets the one-shot `is_h_just_pressed` marker. -/
def processKeyH (isPressed : Bool) (c : CameraController) : CameraController :=
  let c := { c with is_h_pressed := isPressed }
  if isPressed ∧ !c.is_being_helped then { c with is_being_helped := true }
  else if isPressed ∧ c.is_being_helped then
    { c with is_h_just_pressed := true, is_being_helped := false }
  else c

/-- `CameraController::process_mouse` (`camera_controller.rs` lines
138-155): integrate the delta into yaw/pitch, wrap yaw once past ±360,
clamp pitch; a no-op in help mode. -/
def processMouse (c : CameraController) (dx dy : ℚ) : CameraController :=
  if !c.is_being_helped then
    let yaw := c.yaw + dx * c.sensitivity
    let pitch := c.pitch - dy * c.sensitivity
    let yaw := if 360 < yaw then yaw - 360
      else if yaw < -360 then yaw + 360 else yaw
    { c with yaw := yaw, pitch := rclamp (-89) 89 pitch }
  else c

/-- `CameraController::process_mouse_wheel` (`camera_controller.rs` lines
158-175): move the eye along the current front direction; a no-op in help
mode. -/
def processMouseWheel (T : Trig) (scroll : ℚ) (c : CameraController)
    (cam : Camera) : Camera :=
  if !c.is_being_helped then
    { cam with eye :=
        cam.eye.add (Vec3.smul (scroll * c.speed * 50) (T.front c.yaw c.pitch)) }
  else cam

/-- `CameraController::go_to_help` (`camera_controller.rs` lines 245-261):
in help mode force the fixed pose; while navigating, first restore the
saved pose once if the one-shot marker is set, then refresh the snapshot
from the current camera. -/
def goToHelp (c : CameraController) (cam : Camera) :
    CameraController × Camera :=
  if c.is_being_helped then
    (c, { cam with eye := ⟨0, 0, 2⟩, target := ⟨0, 0, 0⟩ })
  else
    let cam := if c.is_h_just_pressed then
      { cam with eye := c.eyecpy, target := c.targetcpy } else cam
    let c := if c.is_h_just_pressed then { c with is_h_just_pressed := false } else c
    ({ c with eyecpy := cam.eye, targetcpy := cam.target }, cam)

/-- `CameraController::update_camera` (`camera_controller.rs` lines
178-242): run `go_to_help` first; then, only while navigating, apply
arrow-key look rotation (no yaw wrapping here), reclamp pitch, recompute
the front/right directions, apply the movement latches to the eye, and
set `target = eye + front`. -/
def updateCamera (T : Trig) (c : CameraController) (cam : Camera) :
    CameraController × Camera :=
  let p := goToHelp c cam
  let c := p.1
  let cam := p.2
  if !c.is_being_helped then
    let yaw := if c.is_looking_left then c.yaw - 1/2 else c.yaw
    let yaw := if c.is_looking_right then yaw + 1/2 else yaw
    let pitch := if c.is_looking_up then c.pitch + 1/2 else c.pitch
    let pitch := if c.is_looking_down then pitch - 1/2 else pitch
    let pitch := rclamp (-89) 89 pitch
    let front := T.front yaw pitch
    let right := T.norm3 (front.cross cam.up)
    let eye := if c.is_forward_pressed then cam.eye.add (Vec3.smul c.speed front)
      else cam.eye
    let eye := if c.is_backward_pressed then eye.sub (Vec3.smul c.speed front)
      else eye
    let eye := if c.is_right_pressed then eye.add (Vec3.smul c.speed right)
      else eye
    let eye := if c.is_left_pressed then eye.sub (Vec3.smul c.speed right)
      else eye
    let eye := if c.is_up_pressed then { eye with y := eye.y + c.speed } else eye
    let eye := if c.is_down_pressed then { eye with y := eye.y - c.speed } else eye
    ({ c with yaw := yaw, pitch := pitch },
      { cam with eye := eye, target := eye.add front })
  else (c, cam)

end CameraController

/-- One per-frame controller update acting on the combined
controller/camera state (the per-frame call
`self.camera_controller.update_camera(&mut self.camera)` in
`state.rs` line 335). -/
def camFrame (T : Trig) (p : CameraController × Camera) :
    CameraController × Camera :=
  CameraController.updateCamera T p.1 p.2

/-- A concrete camera value used to instantiate closed statements. -/
def cam0 : Camera := ⟨⟨0, 1, 2⟩, ⟨0, 0, 0⟩, ⟨0, 1, 0⟩⟩

open World CameraController

/-! ## Projection lemmas for the `update_world` pipeline -/

@[simp] theorem stepInit_inc (w : World) :
    (stepInit w).1.is_increase_pressed = w.is_increase_pressed := by
  unfold stepInit; split <;> rfl

@[simp] theorem stepInit_dec (w : World) :
    (stepInit w).1.is_decrease_pressed = w.is_decrease_pressed := by
  unfold stepInit; split <;> rfl

@[simp] theorem stepInit_num (w : World) :
    (stepInit w).1.num_instances = w.num_instances := by
  unfold stepInit; split <;> rfl

@[simp] theorem stepInit_spin (w : World) :
    (stepInit w).1.is_spin = w.is_spin := by
  unfold stepInit; split <;> rfl

@[simp] theorem stepInit_cc (w : World) :
    (stepInit w).1.is_color_change = w.is_color_change := by
  unfold stepInit; split <;> rfl

@[simp] theorem stepInit_ccp (w : World) :
    (stepInit w).1.is_color_change_pressed = w.is_color_change_pressed := by
  unfold stepInit; split <;> rfl

@[simp] theorem stepInit_resize (w : World) :
    (stepInit w).1.is_resize = w.is_resize := by
  unfold stepInit; split <;> rfl

@[simp] theorem stepInit_flag (w : World) : (stepInit w).2 = w.is_init := by
  unfold stepInit; split <;> simp_all

@[simp] theorem stepInc_num (p : World × Bool) :
    (stepInc p).1.num_instances =
      if p.1.is_increase_pressed then p.1.num_instances + 1
      else p.1.num_instances := by
  unfold stepInc; split <;> simp_all

@[simp] theorem stepInc_dec (p : World × Bool) :
    (stepInc p).1.is_decrease_pressed = p.1.is_decrease_pressed := by
  unfold stepInc; split <;> rfl

@[simp] theorem stepInc_spin (p : World × Bool) :
    (stepInc p).1.is_spin = p.1.is_spin := by
  unfold stepInc; split <;> rfl

@[simp] theorem stepInc_cc (p : World × Bool) :
    (stepInc p).1.is_color_change = p.1.is_color_change := by
  unfold stepInc; split <;> rfl

@[simp] theorem stepInc_ccp (p : World × Bool) :
    (stepInc p).1.is_color_change_pressed = p.1.is_color_change_pressed := by
  unfold stepInc; split <;> rfl

@[simp] theorem stepInc_resize (p : World × Bool) :
    (stepInc p).1.is_resize = p.1.is_resize := by
  unfold stepInc; split <;> rfl

@[simp] theorem stepInc_flag (p : World × Bool) :
    (stepInc p).2 = (p.1.is_increase_pressed || p.2) := by
  unfold stepInc; split <;> simp_all

@[simp] theorem stepDec_num (p : World × Bool) :
    (stepDec p).1.num_instances =
      if p.1.is_decrease_pressed ∧ 0 < p.1.num_instances then
        p.1.num_instances - 1
      else p.1.num_instances := by
  unfold stepDec; split <;> simp_all

@[simp] theorem stepDec_spin (p : World × Bool) :
    (stepDec p).1.is_spin = p.1.is_spin := by
  unfold stepDec; split <;> rfl

@[simp] theorem stepDec_cc (p : World × Bool) :
    (stepDec p).1.is_color_change = p.1.is_color_change := by
  unfold stepDec; split <;> rfl

@[simp] theorem stepDec_ccp (p : World × Bool) :
    (stepDec p).1.is_color_change_pressed = p.1.is_color_change_pressed := by
  unfold stepDec; split <;> rfl

@[simp] theorem stepDec_resize (p : World × Bool) :
    (stepDec p).1.is_resize = p.1.is_resize := by
  unfold stepDec; split <;> rfl

@[simp] theorem stepDec_flag (p : World × Bool) :
    (stepDec p).2 =
      if p.1.is_decrease_pressed ∧ 0 < p.1.num_instances then !p.2
      else p.2 := by
  unfold stepDec; split <;> simp_all

@[simp] theorem stepSpin_num (p : World × Bool) :
    (stepSpin p).1.num_instances = p.1.num_instances := by
  unfold stepSpin; split <;> rfl

@[simp] theorem stepSpin_cc (p : World × Bool) :
    (stepSpin p).1.is_color_change = p.1.is_color_change := by
  unfold stepSpin; split <;> rfl

@[simp] theorem stepSpin_ccp (p : World × Bool) :
    (stepSpin p).1.is_color_change_pressed = p.1.is_color_change_pressed := by
  unfold stepSpin; split <;> rfl

@[simp] theorem stepSpin_resize (p : World × Bool) :
    (stepSpin p).1.is_resize = p.1.is_resize := by
  unfold stepSpin; split <;> rfl

@[simp] theorem stepSpin_flag (p : World × Bool) :
    (stepSpin p).2 = (p.1.is_spin || p.2) := by
  unfold stepSpin; split <;> simp_all

@[simp] theorem stepColor_num (p : World × Bool) :
    (stepColor p).1.num_instances = p.1.num_instances := by
  unfold stepColor
  split
  · rfl
  · split <;> rfl

@[simp] theorem stepColor_resize (p : World × Bool) :
    (stepColor p).1.is_resize = p.1.is_resize := by
  unfold stepColor
  split
  · rfl
  · split <;> rfl

@[simp] theorem stepColor_upscale (p : World × Bool) :
    (stepColor p).1.is_upscalling = p.1.is_upscalling := by
  unfold stepColor
  split
  · rfl
  · split <;> rfl

@[simp] theorem stepColor_flag (p : World × Bool) :
    (stepColor p).2 =
      ((p.1.is_color_change && !p.1.is_color_change_pressed) || p.2) := by
  unfold stepColor
  split
  · simp_all
  · split <;> simp_all

@[simp] theorem stepResize_num (p : World × Bool) :
    (stepResize p).1.num_instances = p.1.num_instances := by
  unfold stepResize
  split
  · split <;> rfl
  · rfl

@[simp] theorem stepResize_flag (p : World × Bool) :
    (stepResize p).2 = (p.1.is_resize || p.2) := by
  unfold stepResize
  split
  · simp_all
  · simp_all

/-- The instance count is untouched by `update_world` except through the
count keys. -/
@[simp] theorem updateWorld_num (w : World) :
    (updateWorld w).num_instances =
      if w.is_being_helped then w.num_instances
      else (updateWorldCore w).1.num_instances := by
  by_cases hh : w.is_being_helped = true
  · simp [updateWorld, hh]
  · simp only [updateWorld]
    rw [if_neg hh, if_neg hh]
    split <;> rfl

/-! ## C10: `update_world` is a no-op in help mode -/

/-- C10 (confirmed): while `is_being_helped` is set, `World::update_world`
changes no `World` state at all — the entire body is guarded by
`if !self.is_being_helped`. -/
theorem c10_update_world_noop_in_help (w : World)
    (h : w.is_being_helped = true) : updateWorld w = w := by
  simp [updateWorld, h]

/-- C10 witness: the freshly constructed world starts in help mode, and a
frame leaves it untouched. -/
theorem c10_witness :
    World.new0.is_being_helped = true ∧ updateWorld World.new0 = World.new0 :=
  ⟨rfl, c10_update_world_noop_in_help World.new0 rfl⟩

/-! ## C5: the instance count never underflows -/

/-- C5 (confirmed): with the count at `0` and the decrement key held, a
frame of `update_world` leaves the count at `0` (whether or not the
increment key is also held, and whether or not the frame regenerates);
the guarded subtraction never runs on a zero count. -/
theorem c5_count_floor (w : World) (h0 : w.num_instances = 0)
    (hdec : w.is_decrease_pressed = true) :
    (updateWorld w).num_instances = 0 ∧
      (updateWorldCore w).1.num_instances = 0 := by
  have hcore : (updateWorldCore w).1.num_instances = 0 := by
    simp only [updateWorldCore, stepResize_num, stepColor_num, stepSpin_num,
      stepDec_num, stepInc_num, stepInit_num, stepInc_dec, stepInit_dec]
    cases hinc : w.is_increase_pressed <;> simp [hinc, h0, hdec]
  refine ⟨?_, hcore⟩
  rw [updateWorld_num]
  split <;> simp [h0, hcore]

/-- C5 witness: count 0, decrement held, in the navigating mode. -/
theorem c5_witness :
    ({ World.new0 with
        is_being_helped := false
        num_instances := 0
        is_decrease_pressed := true } : World).num_instances = 0 ∧
    (updateWorld { World.new0 with
        is_being_helped := false
        num_instances := 0
        is_decrease_pressed := true }).num_instances = 0 :=
  ⟨rfl, (c5_count_floor _ rfl rfl).1⟩

/-! ## C3: the per-frame `change_occurred` flag -/

/-- C3 counterexample: on the very first non-help frame with the
decrement key held (count 5, all toggles off), the flag ends up FALSE —
the source's `change_occurred = !change_occurred` in the decrement branch
cancels the first-frame `true` — even though the frame is both the first
frame and a count-delta frame (the count drops from 5 to 4).  So the flag
is not the claimed disjunction. -/
theorem c3_counterexample :
    (updateWorldCore { World.new0 with
        is_being_helped := false
        is_decrease_pressed := true }).2 = false ∧
    ({ World.new0 with
        is_being_helped := false
        is_decrease_pressed := true } : World).is_init = true ∧
    (updateWorldCore { World.new0 with
        is_being_helped := false
        is_decrease_pressed := true }).1.num_instances = 4 := by
  refine ⟨rfl, rfl, rfl⟩

/-- C3 (corrected): the `change_occurred` flag computed by the
`update_world` body equals
`spin OR resize OR recolor-edge OR ((first-frame OR increment-held) XOR
decrement-fired)`, where the decrement fires when the key is held and the
count (after a possible increment) is positive.  The decrement branch
NEGATES the flag rather than setting it, so a first frame with only the
decrement held yields a false flag. -/
theorem c3_changed_flag (w : World) :
    (updateWorldCore w).2 =
      (w.is_spin || w.is_resize
        || (w.is_color_change && !w.is_color_change_pressed)
        || ((w.is_init || w.is_increase_pressed)
            != (w.is_decrease_pressed
                && (w.is_increase_pressed || decide (0 < w.num_instances))))) := by
  simp only [updateWorldCore, stepResize_flag, stepColor_flag, stepSpin_flag,
    stepDec_flag, stepInc_flag, stepInit_flag, stepColor_resize,
    stepSpin_resize, stepDec_resize, stepInc_resize, stepInit_resize,
    stepSpin_cc, stepDec_cc, stepInc_cc, stepInit_cc,
    stepSpin_ccp, stepDec_ccp, stepInc_ccp, stepInit_ccp,
    stepDec_spin, stepInc_spin, stepInit_spin,
    stepInc_dec, stepInit_dec, stepInc_num, stepInit_num, stepInit_inc]
  cases hspin : w.is_spin <;> cases hrs : w.is_resize <;>
    cases hcc : w.is_color_change <;> cases hccp : w.is_color_change_pressed <;>
      cases hinit : w.is_init <;> cases hinc : w.is_increase_pressed <;>
        cases hdec : w.is_decrease_pressed <;>
          by_cases hn : 0 < w.num_instances <;> simp [hn]

/-! ## C8: spin toggle debounce -/

/-- C8 counterexample: from a starting state whose debounce latch
`is_spin_pressed` is already set, the press-release-press-release
sequence toggles `is_spin` only once (the first press is swallowed by the
debounce), so it does NOT return `is_spin` to its original value. -/
theorem c8_counterexample :
    (spinKey false (spinKey true (spinKey false (spinKey true
        { World.new0 with is_spin_pressed := true })))).is_spin = true ∧
    ({ World.new0 with is_spin_pressed := true } : World).is_spin = false := by
  refine ⟨rfl, rfl⟩

/-- C8 (corrected): provided the debounce latch is clear at the start —
i.e. the spin key is not already held — press+release+press+release
returns `is_spin` to its original value; moreover a press toggles
`is_spin` exactly once, and repeated press events without an intervening
release are absorbed (`spinKey true` is idempotent), so holding the key
across frames toggles only once. -/
theorem c8_spin_debounce (w : World) (h : w.is_spin_pressed = false) :
    (spinKey false (spinKey true (spinKey false (spinKey true w)))).is_spin
        = w.is_spin ∧
      (spinKey true w).is_spin = !w.is_spin ∧
      spinKey true (spinKey true w) = spinKey true w := by
  refine ⟨?_, ?_, ?_⟩ <;> simp [spinKey, h]

/-- C8 witness: the fresh world has the latch clear. -/
theorem c8_witness :
    World.new0.is_spin_pressed = false ∧
    (spinKey false (spinKey true (spinKey false (spinKey true
        World.new0)))).is_spin = World.new0.is_spin :=
  ⟨rfl, (c8_spin_debounce World.new0 rfl).1⟩

/-! ## C9: material cycling -/

/-- `change_material` sends index `m < len` to `(m + 1) % len`. -/
theorem changeMaterialIdx_mod (len m : ℕ) (hm : m < len) :
    changeMaterialIdx len m = (m + 1) % len := by
  unfold changeMaterialIdx
  rcases Nat.lt_or_ge (m + 1) len with h | h
  · rw [if_neg (by omega), Nat.mod_eq_of_lt h]
  · have : m + 1 = len := by omega
    rw [if_pos (by omega), this, Nat.mod_self]

/-- Iterating `change_material` adds `k` modulo `len`. -/
theorem changeMaterialIdx_iterate (len : ℕ) (hlen : 0 < len) (k m : ℕ)
    (hm : m < len) : (changeMaterialIdx len)^[k] m = (m + k) % len := by
  induction k generalizing m with
  | zero => simp [Nat.mod_eq_of_lt hm]
  | succ k ih =>
    rw [Function.iterate_succ_apply, changeMaterialIdx_mod len m hm,
      ih ((m + 1) % len) (Nat.mod_lt _ hlen), Nat.mod_add_mod]
    have hx : m + 1 + k = m + (k + 1) := by omega
    rw [hx]

/-- C9 (confirmed): with at least one material and a starting index below
the material count, `change_material()` increments the index modulo the
count, and `len(materials)` invocations return it to its original
value. -/
theorem c9_material_cycle (len m : ℕ) (hlen : 0 < len) (hm : m < len) :
    (changeMaterialIdx len)^[len] m = m ∧
      changeMaterialIdx len m = (m + 1) % len := by
  refine ⟨?_, changeMaterialIdx_mod len m hm⟩
  rw [changeMaterialIdx_iterate len hlen len m hm, Nat.add_mod_right,
    Nat.mod_eq_of_lt hm]

/-- C9 witness: three materials, starting at index 1. -/
theorem c9_witness :
    0 < 3 ∧ 1 < 3 ∧ (changeMaterialIdx 3)^[3] 1 = 1 :=
  ⟨by decide, by decide, (c9_material_cycle 3 1 (by decide) (by decide)).1⟩

/-! ## C1: the grids for N = 0 and N = 1 -/

/-- C1 counterexample: on a changed frame with `N = 1` (and
`cur_angle = 0`, `cur_scale = 1`), the single generated instance sits at
`(-1.5, 0, -1.5)` — not at the origin — and its rotation angle is
`cur_angle`, not `cur_angle + 45`: the offset
`3 * (0 - 1/2) = -1.5` is never zero for `N = 1`, so the origin bump
cannot fire. -/
theorem c1_counterexample :
    (updateWorld { World.new0 with
        is_being_helped := false
        num_instances := 1 }).model0_instances
      = [⟨⟨-3/2, 0, -3/2⟩, 0, 1⟩] ∧
    (⟨-3/2, 0, -3/2⟩ : Vec3) ≠ ⟨0, 0, 0⟩ ∧ (0 : ℚ) ≠ 0 + 45 := by
  refine ⟨?_, ?_, by norm_num⟩
  · norm_num [updateWorld, updateWorldCore, stepInit, stepInc, stepDec,
      stepSpin, stepColor, stepResize, World.new0, updateWorldInstances,
      rowGo, off, List.range_succ]
  · simp only [ne_eq, Vec3.mk.injEq]
    norm_num

/-- C1 (corrected): on a changed frame, `N = 0` generates the empty list;
`N = 1` generates exactly one instance, at position `(-1.5, 0, -1.5)`
(not the origin), with rotation angle exactly `cur_angle` (no `+45` bump)
and uniform scale `cur_scale`. -/
theorem c1_small_grids (a s : ℚ) :
    updateWorldInstances 0 a s = [] ∧
    updateWorldInstances 1 a s = [⟨⟨-3/2, 0, -3/2⟩, a, s⟩] ∧
    (updateWorld { World.new0 with
        is_being_helped := false
        num_instances := 0
        cur_angle := a
        cur_scale := s }).model0_instances = [] ∧
    (updateWorld { World.new0 with
        is_being_helped := false
        num_instances := 1
        cur_angle := a
        cur_scale := s }).model0_instances = [⟨⟨-3/2, 0, -3/2⟩, a, s⟩] := by
  refine ⟨rfl, ?_, ?_, ?_⟩ <;>
    norm_num [updateWorld, updateWorldCore, stepInit, stepInc, stepDec,
      stepSpin, stepColor, stepResize, World.new0, updateWorldInstances,
      rowGo, off, List.range_succ]

/-! ## C4: yaw wrapping -/

/-- C4 counterexample: a single large mouse delta right after leaving help
mode takes yaw from `-90` to `1110`; one wrap subtraction leaves `750`,
far outside `(-360, 360)`.  The claimed invariant fails even before any
arrow-key rotation is considered. -/
theorem c4_counterexample :
    (processMouse (processKeyH true (CameraController.new 1)) 12000 0).yaw
        = 750 ∧
      ¬((-360 : ℚ) < 750 ∧ (750 : ℚ) < 360) := by
  refine ⟨?_, by norm_num⟩
  norm_num [processMouse, processKeyH, CameraController.new, rclamp]

/-- C4 (corrected): whenever the mouse increment pushes yaw above 360,
360 is subtracted once; below -360, 360 is added once; otherwise yaw is
the incremented value.  This single wrap does not confine yaw to
`(-360, 360)` (a delta with `|dx·sensitivity| > 720` escapes, and the
arrow-key rotation in `update_camera` performs no wrapping at all); what
does hold is that from yaw in the closed interval `[-360, 360]` a step
with `|dx·sensitivity| ≤ 360` stays in `[-360, 360]`. -/
theorem c4_yaw_wrap (c : CameraController) (dx dy : ℚ)
    (h : c.is_being_helped = false) :
    (processMouse c dx dy).yaw =
      (if 360 < c.yaw + dx * c.sensitivity then
        c.yaw + dx * c.sensitivity - 360
      else if c.yaw + dx * c.sensitivity < -360 then
        c.yaw + dx * c.sensitivity + 360
      else c.yaw + dx * c.sensitivity) ∧
    (-360 ≤ c.yaw → c.yaw ≤ 360 → |dx * c.sensitivity| ≤ 360 →
      -360 ≤ (processMouse c dx dy).yaw ∧ (processMouse c dx dy).yaw ≤ 360) := by
  have hy : (processMouse c dx dy).yaw =
      (if 360 < c.yaw + dx * c.sensitivity then
        c.yaw + dx * c.sensitivity - 360
      else if c.yaw + dx * c.sensitivity < -360 then
        c.yaw + dx * c.sensitivity + 360
      else c.yaw + dx * c.sensitivity) := by
    simp [processMouse, h]
  refine ⟨hy, ?_⟩
  intro h1 h2 h3
  rw [abs_le] at h3
  rw [hy]
  split_ifs with hA hB
  · constructor <;> linarith [h3.1, h3.2]
  · constructor <;> linarith [h3.1, h3.2]
  · constructor <;> linarith [h3.1, h3.2]

/-- C4 witness: a small delta from the post-help initial state. -/
theorem c4_witness :
    (processKeyH true (CameraController.new 1)).is_being_helped = false ∧
    (processMouse (processKeyH true (CameraController.new 1)) 10 0).yaw
      = -90 + 10 * (1/10) := by
  refine ⟨rfl, ?_⟩
  rw [(c4_yaw_wrap (processKeyH true (CameraController.new 1)) 10 0 rfl).1]
  norm_num [processKeyH, CameraController.new]

/-! ## C6: the help-mode camera pose override -/

/-- C6 (confirmed): while `helped`, every `update_camera` call forces
eye = (0,0,2) and target = (0,0,0) regardless of prior camera state and
latches (the navigating branch is skipped entirely), and scroll input is
ignored (`process_mouse_wheel` is a no-op in help mode). -/
theorem c6_help_pose (T : Trig) (c : CameraController) (cam : Camera)
    (s : ℚ) (h : c.is_being_helped = true) :
    (updateCamera T c cam).2.eye = ⟨0, 0, 2⟩ ∧
    (updateCamera T c cam).2.target = ⟨0, 0, 0⟩ ∧
    processMouseWheel T s c cam = cam := by
  unfold updateCamera goToHelp processMouseWheel
  simp [h]

/-- C6 witness: the initial controller is in help mode. -/
theorem c6_witness :
    (CameraController.new 1).is_being_helped = true ∧
    (updateCamera Trig.triv (CameraController.new 1) cam0).2.eye = ⟨0, 0, 2⟩ ∧
    (updateCamera Trig.triv (CameraController.new 1) cam0).2.target
      = ⟨0, 0, 0⟩ ∧
    processMouseWheel Trig.triv 3 (CameraController.new 1) cam0 = cam0 :=
  ⟨rfl, (c6_help_pose Trig.triv (CameraController.new 1) cam0 3 rfl).1,
    (c6_help_pose Trig.triv (CameraController.new 1) cam0 3 rfl).2.1,
    (c6_help_pose Trig.triv (CameraController.new 1) cam0 3 rfl).2.2⟩

/-! ## C2: which instances receive the +45 bump -/

theorem off_eq_zero_iff (n i : ℕ) : off n i = 0 ↔ 2 * i = n := by
  unfold off
  constructor
  · intro h
    have h2 : (2 * i : ℚ) = (n : ℚ) := by linarith
    exact_mod_cast h2
  · intro h
    have h2 : (2 * i : ℚ) = (n : ℚ) := by exact_mod_cast h
    linarith

theorem off_neg (n i : ℕ) (h : 2 * i < n) : off n i < 0 := by
  unfold off
  have h2 : (2 * i : ℚ) < (n : ℚ) := by exact_mod_cast h
  linarith

theorem off_pos (n i : ℕ) (h : n < 2 * i) : 0 < off n i := by
  unfold off
  have h2 : (n : ℚ) < (2 * i : ℚ) := by exact_mod_cast h
  linarith

/-- A row segment containing no origin cell keeps the angle accumulator
constant and maps each index to its plain cell. -/
theorem rowGo_no_bump (n : ℕ) (s pz : ℚ) (xs : List ℕ) (a : ℚ)
    (h : ∀ i ∈ xs, ¬(off n i = 0 ∧ pz = 0)) :
    rowGo n s pz a xs = xs.map fun i => ⟨⟨off n i, 0, pz⟩, a, s⟩ := by
  induction xs with
  | nil => rfl
  | cons i xs ih =>
    simp only [rowGo, List.map_cons]
    rw [if_neg (h i (List.mem_cons_self i xs))]
    rw [ih fun j hj => h j (List.mem_cons_of_mem i hj)]

/-- A row segment containing no origin cell leaves the accumulator
unchanged. -/
theorem rowAngleAfter_no_bump (n : ℕ) (pz : ℚ) (xs : List ℕ) (a : ℚ)
    (h : ∀ i ∈ xs, ¬(off n i = 0 ∧ pz = 0)) :
    rowAngleAfter n pz a xs = a := by
  induction xs generalizing a with
  | nil => rfl
  | cons i xs ih =>
    simp only [rowAngleAfter]
    rw [if_neg (h i (List.mem_cons_self i xs))]
    exact ih a fun j hj => h j (List.mem_cons_of_mem i hj)

/-- `rowGo` distributes over append, threading the accumulator. -/
theorem rowGo_append (n : ℕ) (s pz : ℚ) (xs ys : List ℕ) (a : ℚ) :
    rowGo n s pz a (xs ++ ys) =
      rowGo n s pz a xs ++ rowGo n s pz (rowAngleAfter n pz a xs) ys := by
  induction xs generalizing a with
  | nil => rfl
  | cons i xs ih =>
    simp only [List.cons_append, rowGo, rowAngleAfter]
    exact congrArg (List.cons _) (ih _)

/-- In the one row whose z-offset is zero (grid dimension `2m`, row `m`),
the instance at column `m` sits at the origin and bumps the accumulator;
every instance from column `m` on carries `a + 45`, all earlier ones
carry `a`. -/
theorem rowGo_origin_row (m : ℕ) (hm : 0 < m) (s a : ℚ) (inst : Inst)
    (hmem : inst ∈ rowGo (2 * m) s 0 a (List.range (2 * m))) :
    inst.pos.z = 0 ∧
      inst.angleDeg = if 0 ≤ inst.pos.x then a + 45 else a := by
  obtain ⟨m', rfl⟩ : ∃ m', m = m' + 1 := ⟨m - 1, by omega⟩
  have hfirst : ∀ i ∈ List.range (m' + 1),
      ¬(off (2 * (m' + 1)) i = 0 ∧ (0 : ℚ) = 0) := by
    intro i hi hcon
    rw [List.mem_range] at hi
    have := (off_eq_zero_iff (2 * (m' + 1)) i).mp hcon.1
    omega
  have hsplit : List.range (2 * (m' + 1)) =
      List.range (m' + 1) ++ (List.range (m' + 1)).map ((m' + 1) + ·) := by
    rw [two_mul, List.range_add]
  rw [hsplit, rowGo_append, rowGo_no_bump _ _ _ _ _ hfirst,
    rowAngleAfter_no_bump _ _ _ _ hfirst] at hmem
  rw [List.mem_append] at hmem
  rcases hmem with hmem | hmem
  · -- before the origin: columns i < m, offset negative, angle a
    rw [List.mem_map] at hmem
    obtain ⟨i, hi, rfl⟩ := hmem
    rw [List.mem_range] at hi
    refine ⟨rfl, ?_⟩
    rw [if_neg (not_le.mpr (off_neg _ i (by omega)))]
  · -- from the origin on: the head cell bumps, the tail carries the bump
    rw [List.range_succ_eq_map, List.map_cons] at hmem
    simp only [rowGo] at hmem
    rw [if_pos ⟨(off_eq_zero_iff _ (m' + 1 + 0)).mpr (by omega), by trivial⟩,
      rowGo_no_bump _ _ _ _ _ (by
        intro i hi hcon
        rw [List.mem_map] at hi
        obtain ⟨k, hk, rfl⟩ := hi
        rw [List.mem_map] at hk
        obtain ⟨j, hj, rfl⟩ := hk
        have := (off_eq_zero_iff (2 * (m' + 1)) _).mp hcon.1
        omega)] at hmem
    rcases List.mem_cons.mp hmem with hmem | hmem
    · subst hmem
      refine ⟨rfl, ?_⟩
      have h0 : off (2 * (m' + 1)) (m' + 1 + 0) = 0 :=
        (off_eq_zero_iff _ _).mpr (by omega)
      rw [if_pos (by rw [h0])]
    · rw [List.mem_map] at hmem
      obtain ⟨k, hk, rfl⟩ := hmem
      rw [List.mem_map] at hk
      obtain ⟨j, hj, rfl⟩ := hk
      rw [List.mem_map] at hj
      obtain ⟨i, hi, rfl⟩ := hj
      refine ⟨rfl, ?_⟩
      rw [if_pos (le_of_lt (off_pos _ _ (by omega)))]

/-- C2 counterexample: at `N = 4` with `cur_angle = 0`, the instance at
position `(3, 0, 0)` — generated after the origin instance within the
same row — carries angle `45`, not the claimed `cur_angle = 0`: the
per-row angle accumulator stays bumped for the remainder of the origin's
row. -/
theorem c2_counterexample :
    (⟨⟨3, 0, 0⟩, 45, 1⟩ : Inst) ∈ updateWorldInstances 4 0 1 ∧
      (⟨3, 0, 0⟩ : Vec3) ≠ ⟨0, 0, 0⟩ ∧ (45 : ℚ) ≠ 0 := by
  have hlist : updateWorldInstances 4 0 1 =
      [⟨⟨-6, 0, -6⟩, 0, 1⟩, ⟨⟨-3, 0, -6⟩, 0, 1⟩,
        ⟨⟨0, 0, -6⟩, 0, 1⟩, ⟨⟨3, 0, -6⟩, 0, 1⟩,
        ⟨⟨-6, 0, -3⟩, 0, 1⟩, ⟨⟨-3, 0, -3⟩, 0, 1⟩,
        ⟨⟨0, 0, -3⟩, 0, 1⟩, ⟨⟨3, 0, -3⟩, 0, 1⟩,
        ⟨⟨-6, 0, 0⟩, 0, 1⟩, ⟨⟨-3, 0, 0⟩, 0, 1⟩,
        ⟨⟨0, 0, 0⟩, 45, 1⟩, ⟨⟨3, 0, 0⟩, 45, 1⟩,
        ⟨⟨-6, 0, 3⟩, 0, 1⟩, ⟨⟨-3, 0, 3⟩, 0, 1⟩,
        ⟨⟨0, 0, 3⟩, 0, 1⟩, ⟨⟨3, 0, 3⟩, 0, 1⟩] := by
    norm_num [updateWorldInstances, rowGo, off, List.range_succ]
  refine ⟨?_, ?_, by norm_num⟩
  · rw [hlist]
    simp
  · simp only [ne_eq, Vec3.mk.injEq]
    norm_num

/-- C2 (corrected): every generated instance's rotation angle is
`cur_angle`, EXCEPT that the origin instance (which exists exactly when N
is even and positive) receives `cur_angle + 45` AND every instance
generated after it within the same grid row (z-offset 0, non-negative
x-offset) also receives `cur_angle + 45` — the bumped accumulator copy
persists to the end of that row.  Instances in every other row, and the
instances before the origin in its own row, receive exactly
`cur_angle`. -/
theorem c2_angle_characterization (n : ℕ) (a s : ℚ) (inst : Inst)
    (hmem : inst ∈ updateWorldInstances n a s) :
    inst.angleDeg =
      if inst.pos.z = 0 ∧ 0 ≤ inst.pos.x then a + 45 else a := by
  unfold updateWorldInstances at hmem
  rw [List.mem_flatMap] at hmem
  obtain ⟨z, hz, hmem⟩ := hmem
  rw [List.mem_range] at hz
  by_cases hpz : off n z = 0
  · have h2z : 2 * z = n := (off_eq_zero_iff n z).mp hpz
    have hzpos : 0 < z := by omega
    subst h2z
    rw [hpz] at hmem
    obtain ⟨hz0, hangle⟩ := rowGo_origin_row z hzpos s a inst hmem
    rw [hangle, hz0]
    by_cases hx : 0 ≤ inst.pos.x
    · rw [if_pos hx, if_pos ⟨rfl, hx⟩]
    · rw [if_neg hx, if_neg fun hcon => hx hcon.2]
  · rw [rowGo_no_bump n s (off n z) (List.range n) a
      (fun i _ hcon => hpz hcon.2)] at hmem
    rw [List.mem_map] at hmem
    obtain ⟨i, _, rfl⟩ := hmem
    rw [if_neg fun hcon => hpz hcon.1]

/-- C2 witness: at `N = 2` the origin instance exists and receives the
bump. -/
theorem c2_witness :
    (⟨⟨0, 0, 0⟩, 45, 1⟩ : Inst) ∈ updateWorldInstances 2 0 1 ∧
      (⟨⟨0, 0, 0⟩, 45, 1⟩ : Inst).angleDeg =
        if (⟨⟨0, 0, 0⟩, 45, 1⟩ : Inst).pos.z = 0 ∧
            0 ≤ (⟨⟨0, 0, 0⟩, 45, 1⟩ : Inst).pos.x then (0 : ℚ) + 45
        else 0 := by
  have hmem : (⟨⟨0, 0, 0⟩, 45, 1⟩ : Inst) ∈ updateWorldInstances 2 0 1 := by
    have hlist : updateWorldInstances 2 0 1 =
        [⟨⟨-3, 0, -3⟩, 0, 1⟩, ⟨⟨0, 0, -3⟩, 0, 1⟩,
          ⟨⟨-3, 0, 0⟩, 0, 1⟩, ⟨⟨0, 0, 0⟩, 45, 1⟩] := by
      norm_num [updateWorldInstances, rowGo, off, List.range_succ]
    rw [hlist]
    simp
  exact ⟨hmem, c2_angle_characterization 2 0 1 _ hmem⟩

/-! ## C7: help-mode round trip -/

/-- In help mode, `update_camera` only forces the camera pose; the
controller is untouched. -/
theorem updateCamera_helped (T : Trig) (c : CameraController) (cam : Camera)
    (h : c.is_being_helped = true) :
    updateCamera T c cam = (c, { cam with eye := ⟨0, 0, 2⟩, target := ⟨0, 0, 0⟩ }) := by
  unfold updateCamera goToHelp
  simp [h]

/-- Frames spent in help mode leave the controller unchanged. -/
theorem camFrame_iterate_helped (T : Trig) (c : CameraController)
    (cam : Camera) (k : ℕ) (h : c.is_being_helped = true) :
    ((camFrame T)^[k] (c, cam)).1 = c := by
  induction k generalizing cam with
  | zero => rfl
  | succ k ih =>
    rw [Function.iterate_succ_apply]
    show ((camFrame T)^[k] (camFrame T (c, cam))).1 = c
    rw [camFrame, updateCamera_helped T c cam h]
    exact ih _

/-- `update_camera` never changes the help flag. -/
theorem updateCamera_flag (T : Trig) (c : CameraController) (cam : Camera) :
    (updateCamera T c cam).1.is_being_helped = c.is_being_helped := by
  by_cases h : c.is_being_helped = true
  · rw [updateCamera_helped T c cam h]
  · unfold updateCamera goToHelp
    by_cases hj : c.is_h_just_pressed = true <;> simp [h, hj]

/-- `update_camera` never changes the six movement latches. -/
theorem updateCamera_latches (T : Trig) (c : CameraController) (cam : Camera) :
    (updateCamera T c cam).1.is_forward_pressed = c.is_forward_pressed ∧
    (updateCamera T c cam).1.is_backward_pressed = c.is_backward_pressed ∧
    (updateCamera T c cam).1.is_left_pressed = c.is_left_pressed ∧
    (updateCamera T c cam).1.is_right_pressed = c.is_right_pressed ∧
    (updateCamera T c cam).1.is_up_pressed = c.is_up_pressed ∧
    (updateCamera T c cam).1.is_down_pressed = c.is_down_pressed := by
  by_cases h : c.is_being_helped = true
  · rw [updateCamera_helped T c cam h]
    exact ⟨rfl, rfl, rfl, rfl, rfl, rfl⟩
  · unfold updateCamera goToHelp
    by_cases hj : c.is_h_just_pressed = true <;> simp [h, hj]

/-- While navigating, `go_to_help` leaves the one-shot marker cleared,
and `update_camera` keeps it cleared. -/
theorem updateCamera_nav_marker (T : Trig) (c : CameraController)
    (cam : Camera) (h : c.is_being_helped = false) :
    (updateCamera T c cam).1.is_h_just_pressed = false := by
  unfold updateCamera goToHelp
  by_cases hj : c.is_h_just_pressed = true <;> simp [h, hj]

/-- While navigating, the snapshot refreshed by `go_to_help` survives the
rest of `update_camera`. -/
theorem updateCamera_nav_eyecpy (T : Trig) (c : CameraController)
    (cam : Camera) (h : c.is_being_helped = false) :
    (updateCamera T c cam).1.eyecpy = (goToHelp c cam).2.eye := by
  unfold updateCamera goToHelp
  by_cases hj : c.is_h_just_pressed = true <;> simp [h, hj]

/-- While navigating with all six movement latches clear, the navigating
branch of `update_camera` leaves the eye exactly where `go_to_help` put
it. -/
theorem updateCamera_nav_eye_noMove (T : Trig) (c : CameraController)
    (cam : Camera) (h : c.is_being_helped = false)
    (hf : c.is_forward_pressed = false) (hb : c.is_backward_pressed = false)
    (hl : c.is_left_pressed = false) (hr : c.is_right_pressed = false)
    (hu : c.is_up_pressed = false) (hd : c.is_down_pressed = false) :
    (updateCamera T c cam).2.eye = (goToHelp c cam).2.eye := by
  unfold updateCamera goToHelp
  by_cases hj : c.is_h_just_pressed = true <;>
    simp [h, hj, hf, hb, hl, hr, hu, hd]

/-- While navigating, `update_camera` always ends with
`target = eye + front` at its own final yaw/pitch. -/
theorem updateCamera_nav_target (T : Trig) (c : CameraController)
    (cam : Camera) (h : c.is_being_helped = false) :
    (updateCamera T c cam).2.target =
      (updateCamera T c cam).2.eye.add
        (T.front (updateCamera T c cam).1.yaw (updateCamera T c cam).1.pitch) := by
  unfold updateCamera goToHelp
  by_cases hj : c.is_h_just_pressed = true <;> simp [h, hj]

/-- While navigating, `go_to_help` restores the saved eye exactly when the
one-shot marker is set. -/
theorem goToHelp_nav_eye (c : CameraController) (cam : Camera)
    (h : c.is_being_helped = false) :
    (goToHelp c cam).2.eye =
      if c.is_h_just_pressed then c.eyecpy else cam.eye := by
  unfold goToHelp
  by_cases hj : c.is_h_just_pressed = true <;> simp [h, hj]

/-- Pressing H while navigating enters help mode, touching nothing but the
flags. -/
theorem processKeyH_enter (c : CameraController)
    (h : c.is_being_helped = false) :
    (processKeyH true c).is_being_helped = true ∧
    (processKeyH true c).eyecpy = c.eyecpy ∧
    (processKeyH true c).is_forward_pressed = c.is_forward_pressed ∧
    (processKeyH true c).is_backward_pressed = c.is_backward_pressed ∧
    (processKeyH true c).is_left_pressed = c.is_left_pressed ∧
    (processKeyH true c).is_right_pressed = c.is_right_pressed ∧
    (processKeyH true c).is_up_pressed = c.is_up_pressed ∧
    (processKeyH true c).is_down_pressed = c.is_down_pressed := by
  unfold processKeyH
  simp [h]

/-- Pressing H while helped exits help mode and arms the one-shot restore
marker. -/
theorem processKeyH_exit (c : CameraController)
    (h : c.is_being_helped = true) :
    (processKeyH true c).is_being_helped = false ∧
    (processKeyH true c).is_h_just_pressed = true ∧
    (processKeyH true c).eyecpy = c.eyecpy ∧
    (processKeyH true c).is_forward_pressed = c.is_forward_pressed ∧
    (processKeyH true c).is_backward_pressed = c.is_backward_pressed ∧
    (processKeyH true c).is_left_pressed = c.is_left_pressed ∧
    (processKeyH true c).is_right_pressed = c.is_right_pressed ∧
    (processKeyH true c).is_up_pressed = c.is_up_pressed ∧
    (processKeyH true c).is_down_pressed = c.is_down_pressed := by
  unfold processKeyH
  simp [h]

/-- C7 counterexample: with the up-movement latch held (speed 1), a full
round trip — one navigating frame, enter help, one helped frame, exit
help, one restoring frame — ends with eye `(0,2,2)`, NOT the recorded
snapshot `(0,1,2)`: the same update that restores the pose immediately
re-applies the navigating movement/look math on top of it, and the target
is likewise recomputed as `eye + front` rather than restored. -/
theorem c7_counterexample :
    (let T := Trig.triv
     let c0 : CameraController := { CameraController.new 1 with
        is_being_helped := false
        is_up_pressed := true }
     let p1 := camFrame T (c0, cam0)
     let c2 := processKeyH true p1.1
     let p3 := camFrame T (c2, p1.2)
     let c4 := processKeyH true p3.1
     let p5 := camFrame T (c4, p3.2)
     p1.1.eyecpy = ⟨0, 1, 2⟩ ∧ p1.1.targetcpy = ⟨0, 0, 0⟩ ∧
       p5.2.eye = ⟨0, 2, 2⟩ ∧ p5.2.eye ≠ p1.1.eyecpy ∧
       p5.2.target ≠ p1.1.targetcpy) := by
  norm_num [camFrame, updateCamera, goToHelp, processKeyH,
    CameraController.new, Trig.triv, cam0, Vec3.add, Vec3.sub, Vec3.smul,
    Vec3.cross, rclamp, Vec3.mk.injEq]

/-- C7 (corrected): from any navigating state with the six movement
latches clear, the round trip — one navigating update (which records the
snapshot), press H to enter help, any number of helped frames, press H to
exit, one more update — restores the EYE exactly to the recorded value
and clears the one-shot marker; the TARGET is not restored but recomputed
as `eye + front` from the controller's current yaw/pitch (and with a
movement latch held even the eye moves off the restored pose). -/
theorem c7_help_round_trip (T : Trig) (c : CameraController) (cam : Camera)
    (k : ℕ) (hnav : c.is_being_helped = false)
    (hf : c.is_forward_pressed = false) (hb : c.is_backward_pressed = false)
    (hl : c.is_left_pressed = false) (hr : c.is_right_pressed = false)
    (hu : c.is_up_pressed = false) (hd : c.is_down_pressed = false) :
    (let p1 := camFrame T (c, cam)
     let c2 := processKeyH true p1.1
     let p3 := (camFrame T)^[k] (c2, p1.2)
     let c4 := processKeyH true p3.1
     let p5 := camFrame T (c4, p3.2)
     p5.2.eye = p1.1.eyecpy ∧ p5.1.is_h_just_pressed = false ∧
       p5.2.target = p5.2.eye.add (T.front p5.1.yaw p5.1.pitch)) := by
  simp only [camFrame]
  -- the last navigating frame: flag and latches survive, snapshot = eye
  have h1flag : (updateCamera T c cam).1.is_being_helped = false := by
    rw [updateCamera_flag]; exact hnav
  obtain ⟨l1f, l1b, l1l, l1r, l1u, l1d⟩ := updateCamera_latches T c cam
  -- entering help
  obtain ⟨e2flag, e2cpy, e2f, e2b, e2l, e2r, e2u, e2d⟩ :=
    processKeyH_enter (updateCamera T c cam).1 h1flag
  -- the helped frames do not touch the controller
  have h3 : ((camFrame T)^[k] (processKeyH true (updateCamera T c cam).1,
      (updateCamera T c cam).2)).1 = processKeyH true (updateCamera T c cam).1 :=
    camFrame_iterate_helped T _ _ k e2flag
  rw [h3]
  -- exiting help
  obtain ⟨x4flag, x4marker, x4cpy, x4f, x4b, x4l, x4r, x4u, x4d⟩ :=
    processKeyH_exit (processKeyH true (updateCamera T c cam).1) e2flag
  refine ⟨?_, ?_, ?_⟩
  · -- the restored eye is the recorded snapshot
    rw [updateCamera_nav_eye_noMove T _ _ x4flag
        (x4f.trans (e2f.trans (l1f.trans hf)))
        (x4b.trans (e2b.trans (l1b.trans hb)))
        (x4l.trans (e2l.trans (l1l.trans hl)))
        (x4r.trans (e2r.trans (l1r.trans hr)))
        (x4u.trans (e2u.trans (l1u.trans hu)))
        (x4d.trans (e2d.trans (l1d.trans hd))),
      goToHelp_nav_eye _ _ x4flag, if_pos x4marker, x4cpy, e2cpy,
      updateCamera_nav_eyecpy T c cam hnav]
  · exact updateCamera_nav_marker T _ _ x4flag
  · exact updateCamera_nav_target T _ _ x4flag

/-- C7 witness: round trip with two helped frames from a concrete
navigating state. -/
theorem c7_witness :
    ({ CameraController.new 1 with is_being_helped := false }
        : CameraController).is_being_helped = false ∧
    (let p1 := camFrame Trig.triv
        ({ CameraController.new 1 with is_being_helped := false }, cam0)
     let c2 := processKeyH true p1.1
     let p3 := (camFrame Trig.triv)^[2] (c2, p1.2)
     let c4 := processKeyH true p3.1
     let p5 := camFrame Trig.triv (c4, p3.2)
     p5.2.eye = p1.1.eyecpy ∧ p5.1.is_h_just_pressed = false ∧
       p5.2.target = p5.2.eye.add (Trig.triv.front p5.1.yaw p5.1.pitch)) :=
  ⟨rfl, c7_help_round_trip Trig.triv
    { CameraController.new 1 with is_being_helped := false } cam0 2
    rfl rfl rfl rfl rfl rfl rfl⟩
